import Mathlib

/-!
Verification development for the presto molecular-dynamics engine.

The definitions below are a shallow embedding, in Lean 4, of the parts of the
source that the verified properties talk about:

* `src/presto/calculators.py` — the ONIOM composite calculator
  (`ONIOMCalculator.evaluate`) and the pipe-returning tail shared by the
  plain calculators;
* `src/presto/trajectory.py` — `Trajectory.save` and
  `Trajectory.load_from_checkpoint`, with the checkpoint file modelled as a
  record of parallel lists and the inter-process lock modelled as an explicit
  held/released flag on each exit path;
* `src/presto/frame.py` — the frame data carried by the trajectory, and
  `Frame.remove_com_motion`;
* `src/presto/controller.py` — the `Controller.run` step loop.

Machine floats are modelled as exact rationals, numpy arrays as lists, and
Python exceptions as explicit error values.
-/

/-- Vector with three rational components, modelling one atom's row of a
numpy n-by-3 array of positions, velocities, accelerations or forces. -/
structure Vec3 where
  x : ℚ
  y : ℚ
  z : ℚ
  deriving DecidableEq, Repr

def Vec3.add (a b : Vec3) : Vec3 := ⟨a.x + b.x, a.y + b.y, a.z + b.z⟩

def Vec3.sub (a b : Vec3) : Vec3 := ⟨a.x - b.x, a.y - b.y, a.z - b.z⟩

def Vec3.zero : Vec3 := ⟨0, 0, 0⟩

instance : Add Vec3 := ⟨Vec3.add⟩

instance : Sub Vec3 := ⟨Vec3.sub⟩

instance : Zero Vec3 := ⟨Vec3.zero⟩

/-- Scalar multiple of a 3-vector. -/
def Vec3.smul (c : ℚ) (a : Vec3) : Vec3 := ⟨c * a.x, c * a.y, c * a.z⟩

/-- Cross product, modelling `np.cross` on rows. -/
def Vec3.cross (a b : Vec3) : Vec3 :=
  ⟨a.y * b.z - a.z * b.y, a.z * b.x - a.x * b.z, a.x * b.y - a.y * b.x⟩

/-- Dot product of two 3-vectors. -/
def Vec3.dot (a b : Vec3) : ℚ := a.x * b.x + a.y * b.y + a.z * b.z

/-- Squared euclidean norm.  The source compares `np.linalg.norm(w) < 1e-4`;
since both sides are nonnegative this is equivalent to
`normSq w < (1e-4)^2`, which stays inside the rationals. -/
def Vec3.normSq (a : Vec3) : ℚ := a.dot a

/-- Sum of a list of 3-vectors, modelling `np.sum(..., axis=0)`. -/
def vecSum (l : List Vec3) : Vec3 := l.foldr Vec3.add Vec3.zero

/-! ## ONIOM composite calculator (`src/presto/calculators.py`, lines 324-404)

`ONIOMCalculator.evaluate` launches the high calculator on the high-atom
subset, the low calculator on the same subset, and the full (low-level)
calculator on the whole system, each in a worker process that sends
`[energy, forces]` back through a pipe.  The coordinator receives the three
results, joins each worker with a 3600-second bound, asserts that each exit
code equals 0 (a worker still alive after the join bound has exit code
`None`), and then combines the results.  We model each worker by the value
it sent plus its observed exit code. -/

/-- Outcome of one ONIOM worker process that delivered a result: the
`[energy, forces]` pair it sent through its pipe, and its exit code as
observed after `join(3600)` — `none` models a worker that had not exited
when the join bound elapsed.  This abstraction presupposes the send
happened; `WorkerRun` below drops that assumption and also covers workers
that died before sending. -/
structure WorkerOutcome where
  energy : ℚ
  forces : List Vec3
  exitcode : Option Int
  deriving DecidableEq, Repr

/-- Write a list of (0-based index, value) pairs into a list, left to right,
modelling numpy fancy-index assignment `arr[idxs] = vals` (the right-hand
side is fully evaluated before any write, and writes happen in index-list
order). -/
def writeAt (l : List Vec3) (ps : List (Nat × Vec3)) : List Vec3 :=
  ps.foldl (fun acc p => acc.set p.1 p.2) l

/-- Force combination of `ONIOMCalculator.evaluate` (calculators.py lines
401-402): `forces = f_ll; forces[high_atoms] = f_hh + f_ll[high_atoms] - f_hl`.
Atom numbers in `high_atoms` are 1-indexed (`cctk.OneIndexedArray`), so atom
`a` lives at list position `a - 1`.  The right-hand side is computed first
(numpy fancy indexing copies), then written at the subset positions. -/
def oniomForces (high_atoms : List Nat) (f_hh f_hl f_ll : List Vec3) : List Vec3 :=
  let rhs := (List.range high_atoms.length).map fun k =>
    (f_hh.getD k 0 + f_ll.getD (high_atoms.getD k 1 - 1) 0) - f_hl.getD k 0
  writeAt f_ll (List.zip (high_atoms.map fun a => a - 1) rhs)

/-- ONIOMCalculator.evaluate (calculators.py lines 347-404) from the point
where all three pipe receives (lines 385-387) have delivered — the phase a
`WorkerOutcome` abstraction can describe.  The body first asserts the high
layer is non-empty (line 351), then asserts each worker exit code equals 0
after the join (lines 389-397), and finally returns the ONIOM combination
(lines 399-404).  The `pipe` parameter is accepted (line 347) but never
referenced in the body; the second component of the result records every
value sent through that pipe, which is syntactically none.  On an
assertion failure nothing is returned.  `oniomEvaluateRun` below models
the same function including the receive phase, where a worker that never
sent leaves the call blocked. -/
def oniomEvaluate (high_atoms : List Nat) (hh hl ll : WorkerOutcome)
    (pipe : Option Unit) : Except String (ℚ × List Vec3) × List (ℚ × List Vec3) :=
  if high_atoms.isEmpty then
    (Except.error "no point in doing ONIOM without a high layer!", [])
  else if hh.exitcode ≠ some 0 then
    (Except.error "process_hh exited not-ok", [])
  else if hl.exitcode ≠ some 0 then
    (Except.error "process_hl exited not-ok", [])
  else if ll.exitcode ≠ some 0 then
    (Except.error "process_ll exited not-ok", [])
  else
    (Except.ok (hh.energy + ll.energy - hl.energy,
      oniomForces high_atoms hh.forces hl.forces ll.forces), [])

/-- Return tail shared by `NullCalculator`, `XTBCalculator` and
`GaussianCalculator` (calculators.py lines 192-197 and analogues): when a
pipe is supplied the result is sent through it and the function returns
`None`; otherwise the result is returned directly.  The first component is
the returned value, the second the list of values sent through the pipe. -/
def calculatorReturn (pipe : Option Unit) (res : ℚ × List Vec3) :
    Option (ℚ × List Vec3) × List (ℚ × List Vec3) :=
  match pipe with
  | some _ => (none, [res])
  | none => (some res, [])

/-! ## Python numeric and sequence helpers -/

/-- Truncation toward zero, modelling the Python `int()` conversion applied
at trajectory.py line 390. -/
def pyInt (q : ℚ) : Int := if q < 0 then Int.ceil q else Int.floor q

/-- Tail slice `l[start:]` of a Python list: a nonnegative start drops that
many elements, a negative start keeps the last `-start` elements (clamped). -/
def pyTail {α : Type} (start : Int) (l : List α) : List α :=
  if 0 ≤ start then l.drop start.toNat else l.drop ((l.length + start).toNat)

/-- Exact-multiple test modelling the float expression `t % d == 0` for a
positive divisor `d` (trajectory.py lines 403 and 448): true exactly when
`t` is an integer multiple of `d`. -/
def exactMultiple (d t : ℚ) : Bool := decide ((t / d).den = 1)

/-! ## Frame data (`src/presto/frame.py`) as consumed by the trajectory

`frame.py` line 20 gives `Frame.__init__` the parameters
`(trajectory, x, v, a, bath_temperature, energy)` and stores no time, yet
`trajectory.py` and `controller.py` read and pass `frame.time` throughout
(for example trajectory.py lines 264, 355, 378, 390 and controller.py line
43).  `FrameData` models a frame record with the fields those callers use. -/

/-- Fields of one frame as read by `Trajectory.save`, written by
`Trajectory.load_from_checkpoint` and stepped by the controller. -/
structure FrameData where
  time : ℚ
  energy : ℚ
  bath_temperature : ℚ
  positions : List Vec3
  velocities : List Vec3
  accelerations : List Vec3
  deriving DecidableEq, Repr

/-! ## Checkpoint store (`src/presto/trajectory.py`)

The hdf5 checkpoint is a record of four scalar attributes and six parallel
append-only arrays; the inter-process lock is modelled by reporting, on every
exit path of `save` and `load_from_checkpoint`, whether the lock acquired at
entry is still held. -/

/-- Persisted checkpoint contents (attributes plus the six parallel arrays,
named as the hdf5 datasets are in trajectory.py lines 438-467). -/
structure Checkpoint where
  atomic_numbers : List Int
  masses : List ℚ
  finished : Bool
  forwards : Bool
  all_times : List ℚ
  all_energies : List ℚ
  all_positions : List (List Vec3)
  all_velocities : List (List Vec3)
  all_accelerations : List (List Vec3)
  bath_temperatures : List ℚ
  deriving DecidableEq, Repr

/-- In-memory trajectory state used by `save` and `load_from_checkpoint`:
configuration fields plus the frame buffer. -/
structure TrajState where
  timestep : ℚ
  save_interval : Nat
  buffer : Nat
  atomic_numbers : List Int
  masses : List ℚ
  finished : Bool
  forwards : Bool
  frames : List FrameData
  deriving DecidableEq, Repr

/-- Result of a `Trajectory.save` call: the raised error if any, the
persisted state when the call exits (partial attribute updates included),
the in-memory frame buffer after the call, and whether the inter-process
lock is still held when the call exits. -/
structure SaveResult where
  err : Option String
  ck : Option Checkpoint
  frames : List FrameData
  lockHeldAfter : Bool
  deriving DecidableEq, Repr

/-- Frames selected for appending (trajectory.py lines 398-404): from the
examined window, those strictly newer than the last persisted time whose
time is an exact multiple of `timestep * save_interval`. -/
def eligibleNewFrames (last_saved_time dt : ℚ) (si : Nat)
    (window : List FrameData) : List FrameData :=
  window.filter fun f =>
    decide (last_saved_time < f.time) && exactMultiple (dt * (si : ℚ)) f.time

/-- Trajectory.save (trajectory.py lines 372-476).  The lock is acquired at
entry (line 376).  With an existing checkpoint the attributes are updated
first (382-383), the new-frame count is the Python `int()` of the time delta
over `timestep * save_interval` (line 390), a zero count releases the lock
and returns (393-395), a negative count fails the `new_n_frames > 0` assert
(396), the selected frames are cross-checked against the count (398-405) and
then every parallel array is extended (407-434); the lock is released at
line 470 and the buffer trimmed (472-476).  Errors raised mid-body propagate
with the lock still held, the arrays untouched and the attribute updates
already applied.  Without an existing checkpoint a fresh file is written
from the save-aligned frames (437-469); the partial file left behind when
`np.stack` fails on an empty selection is not modelled beyond the error. -/
def Trajectory.save (t : TrajState) (ck : Option Checkpoint) (keep_all : Bool) : SaveResult :=
  match t.frames.getLast? with
  | none =>
      { err := some "IndexError: list index out of range", ck := ck,
        frames := t.frames, lockHeldAfter := true }
  | some lastFrame =>
    let last_run_time := lastFrame.time
    match ck with
    | some c =>
        let c1 : Checkpoint := { c with finished := t.finished, forwards := t.forwards }
        match c.all_times.getLast? with
        | none =>
            { err := some "IndexError: all_times is empty", ck := some c1,
              frames := t.frames, lockHeldAfter := true }
        | some last_saved_time =>
          let new_n_frames : Int :=
            pyInt ((last_run_time - last_saved_time) / (t.timestep * (t.save_interval : ℚ)))
          if new_n_frames = 0 then
            { err := none, ck := some c1, frames := t.frames, lockHeldAfter := false }
          else if new_n_frames < 0 then
            { err := some "we cannot write negative frames", ck := some c1,
              frames := t.frames, lockHeldAfter := true }
          else
            let window := pyTail (-(new_n_frames * (t.save_interval : Int)) - 1) t.frames
            let frames_to_add := eligibleNewFrames last_saved_time t.timestep t.save_interval window
            if (frames_to_add.length : Int) ≠ new_n_frames then
              { err := some "pernicious math error in frame numbers!", ck := some c1,
                frames := t.frames, lockHeldAfter := true }
            else
              let c2 : Checkpoint := { c1 with
                all_times := c1.all_times ++ frames_to_add.map (fun f => f.time),
                all_energies := c1.all_energies ++ frames_to_add.map (fun f => f.energy),
                all_positions := c1.all_positions ++ frames_to_add.map (fun f => f.positions),
                all_velocities := c1.all_velocities ++ frames_to_add.map (fun f => f.velocities),
                all_accelerations := c1.all_accelerations ++ frames_to_add.map (fun f => f.accelerations),
                bath_temperatures := c1.bath_temperatures ++ frames_to_add.map (fun f => f.bath_temperature) }
              { err := none, ck := some c2,
                frames := if keep_all then t.frames else pyTail (-(t.buffer : Int)) t.frames,
                lockHeldAfter := false }
    | none =>
        let frames_to_add := t.frames.filter fun f =>
          exactMultiple (t.timestep * (t.save_interval : ℚ)) f.time
        if frames_to_add.isEmpty then
          { err := some "ValueError: need at least one array to stack", ck := none,
            frames := t.frames, lockHeldAfter := true }
        else
          let c : Checkpoint := {
            atomic_numbers := t.atomic_numbers, masses := t.masses,
            finished := t.finished, forwards := t.forwards,
            all_times := frames_to_add.map (fun f => f.time),
            all_energies := frames_to_add.map (fun f => f.energy),
            all_positions := frames_to_add.map (fun f => f.positions),
            all_velocities := frames_to_add.map (fun f => f.velocities),
            all_accelerations := frames_to_add.map (fun f => f.accelerations),
            bath_temperatures := frames_to_add.map (fun f => f.bath_temperature) }
          { err := none, ck := some c,
            frames := if keep_all then t.frames else pyTail (-(t.buffer : Int)) t.frames,
            lockHeldAfter := false }

/-! ## Loading from a checkpoint (`trajectory.py` lines 294-361) -/

/-- Frame-selection keyword accepted by `load_from_checkpoint`
(trajectory.py lines 308-317); explicit slice objects other than these four
named forms are not needed by the verified properties. -/
inductive LoadSel where
  | all
  | first
  | last
  | buffer
  deriving DecidableEq, Repr

/-- Row selection applied to each persisted array (trajectory.py lines
308-317 mapped onto lines 334-339): `all` is `[:]`, `first` is `[1:]`,
`last` is `[-1:]` and `buffer` is `[-self.buffer:]`. -/
def loadSelect {α : Type} (sel : LoadSel) (buffer : Nat) (l : List α) : List α :=
  match sel with
  | LoadSel.all => l
  | LoadSel.first => pyTail 1 l
  | LoadSel.last => pyTail (-1) l
  | LoadSel.buffer => pyTail (-(buffer : Int)) l

/-- Parameter names accepted by `Frame.__init__` (frame.py line 20). -/
def frameInitParams : List String :=
  ["trajectory", "x", "v", "a", "bath_temperature", "energy"]

/-- Keyword arguments passed by `load_from_checkpoint` when rebuilding each
frame (trajectory.py lines 348-356), beyond the positional ones. -/
def loadFrameCallKwargs : List String := ["energy", "bath_temperature", "time"]

/-- Python call semantics: a call raises `TypeError` when some keyword
argument is not among the parameters of the callee. -/
def callRaisesTypeError (params kwargs : List String) : Bool :=
  kwargs.any fun k => !(params.contains k)

/-- Frame records rebuilt from the selected rows of the six parallel arrays,
in time order (the body of the loop at trajectory.py lines 347-356 as it
would execute if the constructor call were accepted). -/
def buildLoadedFrames : List ℚ → List ℚ → List (List Vec3) → List (List Vec3) →
    List (List Vec3) → List ℚ → List FrameData
  | t :: ts, e :: es, p :: ps, v :: vs, a :: acs, b :: bs =>
      { time := t, energy := e, positions := p, velocities := v,
        accelerations := a, bath_temperature := b } :: buildLoadedFrames ts es ps vs acs bs
  | _, _, _, _, _, _ => []

/-- Result of a `Trajectory.load_from_checkpoint` call. -/
structure LoadResult where
  err : Option String
  lockHeldAfter : Bool
  atomic_numbers : List Int
  masses : List ℚ
  finished : Bool
  forwards : Bool
  frames : List FrameData
  deriving DecidableEq, Repr

/-- Trajectory.load_from_checkpoint (trajectory.py lines 294-361).  Without
a checkpoint it returns before the lock is taken (305-306).  Otherwise the
lock is acquired (320), the four attributes are read (323-330), the frame
list is reset (332) and, when the `all_energies` dataset is non-empty, the
selected rows are read (333-339) and one `Frame` is built per row (347-356).
That constructor call passes `time=...`, a keyword `Frame.__init__` does not
accept, so the first iteration raises `TypeError` and the exception
propagates before the release at line 360, leaving the lock held. -/
def Trajectory.load_from_checkpoint (sel : LoadSel) (t : TrajState)
    (ck : Option Checkpoint) : LoadResult :=
  match ck with
  | none =>
      { err := none, lockHeldAfter := false, atomic_numbers := t.atomic_numbers,
        masses := t.masses, finished := t.finished, forwards := t.forwards,
        frames := t.frames }
  | some c =>
      if c.all_energies.length ≠ 0 then
        let ts := loadSelect sel t.buffer c.all_times
        let es := loadSelect sel t.buffer c.all_energies
        let ps := loadSelect sel t.buffer c.all_positions
        let vs := loadSelect sel t.buffer c.all_velocities
        let acs := loadSelect sel t.buffer c.all_accelerations
        let bs := loadSelect sel t.buffer c.bath_temperatures
        if ts.isEmpty then
          { err := none, lockHeldAfter := false, atomic_numbers := c.atomic_numbers,
            masses := c.masses, finished := c.finished, forwards := c.forwards,
            frames := [] }
        else if callRaisesTypeError frameInitParams loadFrameCallKwargs then
          { err := some "TypeError: unexpected keyword argument time",
            lockHeldAfter := true, atomic_numbers := c.atomic_numbers,
            masses := c.masses, finished := c.finished, forwards := c.forwards,
            frames := [] }
        else
          { err := none, lockHeldAfter := false, atomic_numbers := c.atomic_numbers,
            masses := c.masses, finished := c.finished, forwards := c.forwards,
            frames := buildLoadedFrames ts es ps vs acs bs }
      else
        { err := none, lockHeldAfter := false, atomic_numbers := c.atomic_numbers,
          masses := c.masses, finished := c.finished, forwards := c.forwards,
          frames := [] }

/-! ## Center-of-mass motion removal (`frame.py` lines 114-132) -/

/-- Tolerance of the three residual assertions in `remove_com_motion`
(frame.py lines 123, 129, 130): the norm must be below `0.0001`. -/
def comTol : ℚ := 1 / 10000

/-- Mass-weighted sum `np.sum(masses.reshape(-1,1) * rows, axis=0)`. -/
def massWeightedSum (masses : List ℚ) (rows : List Vec3) : Vec3 :=
  vecSum (List.zipWith Vec3.smul masses rows)

/-- Frame.remove_com_motion (frame.py lines 114-132), acting on the mass
list of the owning trajectory and the frame positions and velocities.
Every step ranges over all atoms — the active-atom set is never consulted.
Steps: move the unweighted centroid to the origin (116-117); subtract the
mass-averaged translation from every velocity (120-122) and assert the
residual total momentum is below tolerance (123); subtract the rotational
correction `(r x (L/M)) / |r|^2` from every velocity (126-128) and assert
the residual total momentum (129) and residual total angular momentum (130)
are below tolerance.  Norm comparisons are carried out on squares to stay
rational; a failed assertion is a raised error. -/
def Frame.remove_com_motion (masses : List ℚ) (positions velocities : List Vec3) :
    Except String (List Vec3 × List Vec3) :=
  let totalMass := masses.sum
  let centroid := Vec3.smul (1 / (positions.length : ℚ)) (vecSum positions)
  let pos1 := positions.map fun p => p.sub centroid
  let com_translation := massWeightedSum masses velocities
  let correction_tran := Vec3.smul (1 / totalMass) com_translation
  let v1 := velocities.map fun v => v.sub correction_tran
  if ¬ (Vec3.normSq (massWeightedSum masses v1) < comTol ^ 2) then
    Except.error "did not remove COM translation well enough (first check)"
  else
    let com_rotation :=
      vecSum (List.zipWith Vec3.cross v1 (List.zipWith Vec3.smul masses pos1))
    let u := Vec3.smul (1 / totalMass) com_rotation
    let correction_r := pos1.map fun p => Vec3.smul (1 / Vec3.normSq p) (Vec3.cross p u)
    let v2 := List.zipWith Vec3.sub v1 correction_r
    if ¬ (Vec3.normSq (massWeightedSum masses v2) < comTol ^ 2) then
      Except.error "did not remove COM translation well enough (second check)"
    else if ¬ (Vec3.normSq (massWeightedSum masses (List.zipWith Vec3.cross v2 pos1)) < comTol ^ 2) then
      Except.error "did not remove COM rotation well enough"
    else
      Except.ok (pos1, v2)

/-! ## Controller step loop (`src/presto/controller.py`)

`controller.py` dispatches on `presto.trajectory.EquilibrationTrajectory`
(line 39) and `presto.trajectory.ReactionTrajectory` (line 56), two
subclasses referenced nowhere else: `trajectory.py` defines only
`Trajectory`.  Modelled from the spec: sections 4.3 and 9 describe an
equilibration-style trajectory carrying the bath schedule and a
reaction-style trajectory carrying the termination predicate and the settle
duration `time_after_finished`, both otherwise behaving as `Trajectory`;
the `kind` tag below stands for the `isinstance` dispatch. -/

/-- Which trajectory subclass the controller is driving. -/
inductive TrajKind where
  | plain
  | equilibration
  | reaction
  deriving DecidableEq, Repr

/-- Trajectory state as the controller uses it: the stepping configuration,
the bath schedule, the termination predicate, the settle duration, the
frame buffer and the finished flag. -/
structure CtrlTraj where
  kind : TrajKind
  timestep : ℚ
  stop_time : ℚ
  forwards : Bool
  bath_scheduler : ℚ → ℚ
  termination_function : FrameData → Bool
  time_after_finished : ℚ
  frames : List FrameData
  finished : Bool

/-- What `integrator.next(self, forwards)` returns (frame.py line 63): the
energy of the current frame plus the successor coordinates. -/
structure IntegratorStep where
  energy : ℚ
  new_x : List Vec3
  new_v : List Vec3
  new_a : List Vec3

/-- Frame.next (frame.py lines 52-65): the successor frame is built from the
integrator output with `bath_temperature` set to the `temp` argument and
energy left at the constructor default `0.0` (it is overwritten later by the
frame's own evaluator call).  Modelled from the spec: frame.py as given
stores no time on frame construction, while controller.py line 43 requires
`new_frame.time` to equal the advanced clock; per spec section 4.1 the
successor time advances by exactly one timestep in the run direction. -/
def frameNext (dt : ℚ) (forwards : Bool) (f : FrameData) (step : IntegratorStep)
    (temp : ℚ) : FrameData :=
  { time := if forwards then f.time + dt else f.time - dt,
    energy := 0, bath_temperature := temp,
    positions := step.new_x, velocities := step.new_v, accelerations := step.new_a }

/-- Loop state of `Controller.run`: the trajectory plus the local variables
`current_time`, `end_time` and `finished_early`. -/
structure CtrlState where
  traj : CtrlTraj
  current_time : ℚ
  end_time : ℚ
  finished_early : Bool

/-- One iteration of the while loop of Controller.run (controller.py lines
34-67).  The clock advances one timestep (35); the scheduled bath
temperature is computed into the local `bath_temperature` (38-41) but the
call at line 42 passes `current_frame.bath_temperature` to `Frame.next`
instead; the new frame time is checked against the clock (43) and the frame
appended (44).  Checks and reporters (46-52) are not modelled — the runs
verified here register none.  For a reaction trajectory not yet finished
early, line 57 evaluates `self.frames[-1]`; `Controller.__init__` (line 16)
sets only `self.trajectory`, so the attribute lookup raises AttributeError
before the termination predicate is ever called.  The periodic save (62-63)
persists state without affecting the loop variables and is omitted. -/
def controllerTick (integ : FrameData → Bool → IntegratorStep) (s : CtrlState) :
    Except String CtrlState :=
  let tr := s.traj
  let t1 := s.current_time + tr.timestep
  match tr.frames.getLast? with
  | none => Except.error "IndexError: list index out of range"
  | some current_frame =>
    let bath_temperature :=
      if tr.kind = TrajKind.equilibration then tr.bath_scheduler t1
      else current_frame.bath_temperature
    let new_frame := frameNext tr.timestep tr.forwards current_frame
      (integ current_frame tr.forwards) current_frame.bath_temperature
    if new_frame.time ≠ t1 then
      Except.error "frame time does not match loop time"
    else
      let tr1 := { tr with frames := tr.frames ++ [new_frame] }
      if tr.kind = TrajKind.reaction ∧ ¬ s.finished_early then
        Except.error "AttributeError: Controller object has no attribute frames"
      else
        Except.ok { traj := tr1, current_time := t1, end_time := s.end_time,
                    finished_early := s.finished_early }

/-- Controller.run (controller.py lines 18-76) from an initial loop state,
with explicit fuel bounding the number of iterations (the Python loop runs
until the clock reaches `end_time`).  After the loop, the final save (69) is
followed by the finished-flag decision (70-73): `finished` is set when the
clock equals `stop_time` exactly; otherwise, had `finished_early` been set,
line 73 would again read the missing `self.frames` attribute and raise. -/
def controllerRun (integ : FrameData → Bool → IntegratorStep) :
    Nat → CtrlState → Except String CtrlTraj
  | 0, _ => Except.error "model ran out of fuel"
  | Nat.succ fuel, s =>
    if s.current_time < s.end_time then
      match controllerTick integ s with
      | Except.error e => Except.error e
      | Except.ok s1 => controllerRun integ fuel s1
    else
      let tr := s.traj
      if s.current_time = tr.stop_time then
        Except.ok { tr with finished := true }
      else if s.finished_early then
        Except.error "AttributeError: Controller object has no attribute frames"
      else
        Except.ok tr

/-! ## Helper lemmas about list updates -/

theorem getD_set_ne {α : Type} (l : List α) (i j : Nat) (v d : α) (h : i ≠ j) :
    (l.set i v).getD j d = l.getD j d := by
  induction l generalizing i j with
  | nil => simp
  | cons a l ih =>
    cases i with
    | zero =>
      cases j with
      | zero => exact absurd rfl h
      | succ j => simp
    | succ i =>
      cases j with
      | zero => simp
      | succ j => simpa using ih i j (by omega)

theorem getD_set_self {α : Type} (l : List α) (i : Nat) (v d : α) (h : i < l.length) :
    (l.set i v).getD i d = v := by
  induction l generalizing i with
  | nil => simp at h
  | cons a l ih =>
    cases i with
    | zero => simp
    | succ i => simpa using ih i (by simpa using h)

theorem writeAt_getD_not_mem (ps : List (Nat × Vec3)) (l : List Vec3) (j : Nat) (d : Vec3)
    (h : j ∉ ps.map Prod.fst) : (writeAt l ps).getD j d = l.getD j d := by
  induction ps generalizing l with
  | nil => rfl
  | cons p ps ih =>
    have hj : p.1 ≠ j := by
      intro he
      exact h (by simp [he.symm])
    have ht : j ∉ ps.map Prod.fst := fun hm => h (by simp [hm])
    calc (writeAt (l.set p.1 p.2) ps).getD j d = (l.set p.1 p.2).getD j d := ih _ ht
      _ = l.getD j d := getD_set_ne _ _ _ _ _ hj

theorem mem_map_fst_zip {α β : Type} (idxs : List α) (vals : List β) (j : α)
    (h : j ∈ (List.zip idxs vals).map Prod.fst) : j ∈ idxs := by
  rcases List.mem_map.mp h with ⟨p, hp, he⟩
  exact he ▸ (List.of_mem_zip hp).1

theorem writeAt_zip_getD (idxs : List Nat) (vals : List Vec3) (l : List Vec3) (d : Vec3)
    (hnd : idxs.Nodup) (k : Nat) (hk : k < idxs.length) (hkv : k < vals.length)
    (hb : idxs.getD k 0 < l.length) :
    (writeAt l (List.zip idxs vals)).getD (idxs.getD k 0) d = vals.getD k d := by
  induction idxs generalizing vals l k with
  | nil => simp at hk
  | cons i is ih =>
    cases vals with
    | nil => simp at hkv
    | cons v vs =>
      cases k with
      | zero =>
        have hni : i ∉ (List.zip is vs).map Prod.fst := fun hm =>
          (List.nodup_cons.mp hnd).1 (mem_map_fst_zip is vs i hm)
        calc (writeAt (l.set i v) (List.zip is vs)).getD i d
            = (l.set i v).getD i d := writeAt_getD_not_mem _ _ _ _ hni
          _ = v := getD_set_self _ _ _ _ (by simpa using hb)
      | succ k =>
        have := ih vs (l.set i v) (List.nodup_cons.mp hnd).2 k
          (by simpa using hk) (by simpa using hkv)
          (by simpa using hb)
        simpa using this

/-! ## Claim C1 — ONIOM combination law -/

/-- C1: for every composite (ONIOM) evaluation with a non-empty, duplicate-free
high-level subset of the 1..n atom range, given the three worker results with
clean exits, the returned energy is `Eh + Ef - El` and the returned force is
the whole-system low force outside the subset and
`Fh + Ff[atom] - Fl[atom]` for the k-th subset atom. -/
theorem oniom_combination
    (H : List Nat) (hh hl ll : WorkerOutcome) (n : Nat)
    (hne : H ≠ [])
    (hnd : H.Nodup)
    (hrange : ∀ a ∈ H, 1 ≤ a ∧ a ≤ n)
    (hn : ll.forces.length = n)
    (hok1 : hh.exitcode = some 0) (hok2 : hl.exitcode = some 0) (hok3 : ll.exitcode = some 0) :
    (oniomEvaluate H hh hl ll none).1 =
      Except.ok (hh.energy + ll.energy - hl.energy,
        oniomForces H hh.forces hl.forces ll.forces)
    ∧ (∀ a, 1 ≤ a → a ∉ H →
        (oniomForces H hh.forces hl.forces ll.forces).getD (a - 1) 0 =
          ll.forces.getD (a - 1) 0)
    ∧ (∀ k, k < H.length →
        (oniomForces H hh.forces hl.forces ll.forces).getD (H.getD k 1 - 1) 0 =
          (hh.forces.getD k 0 + ll.forces.getD (H.getD k 1 - 1) 0) - hl.forces.getD k 0) := by
  refine ⟨?_, ?_, ?_⟩
  · have hie : H.isEmpty = false := by
      cases H with
      | nil => exact absurd rfl hne
      | cons a l => rfl
    simp [oniomEvaluate, hie, hok1, hok2, hok3]
  · intro a ha hmem
    simp only [oniomForces]
    apply writeAt_getD_not_mem
    intro hm
    have hmm : a - 1 ∈ H.map (fun x => x - 1) := mem_map_fst_zip _ _ _ hm
    rcases List.mem_map.mp hmm with ⟨b, hbH, hbe⟩
    have hb1 : 1 ≤ b := (hrange b hbH).1
    have hba : b = a := by omega
    exact hmem (hba ▸ hbH)
  · intro k hk
    simp only [oniomForces]
    have hlenm : (H.map fun a => a - 1).length = H.length := by simp
    have hrhslen : ((List.range H.length).map fun k =>
        (hh.forces.getD k 0 + ll.forces.getD (H.getD k 1 - 1) 0) - hl.forces.getD k 0).length
        = H.length := by simp
    have hHk : H.getD k 1 ∈ H := by
      rw [List.getD_eq_getElem _ _ hk]
      exact List.getElem_mem hk
    have hidx : (H.map fun a => a - 1).getD k 0 = H.getD k 1 - 1 := by
      rw [List.getD_eq_getElem _ _ (by simpa using hk), List.getElem_map,
        List.getD_eq_getElem _ _ hk]
    have hnd1 : (H.map fun a => a - 1).Nodup := by
      refine List.Nodup.map_on ?_ hnd
      intro x hx y hy hxy
      have h1 := (hrange x hx).1
      have h2 := (hrange y hy).1
      omega
    have hb : (H.map fun a => a - 1).getD k 0 < ll.forces.length := by
      rw [hidx, hn]
      have := hrange _ hHk
      omega
    have hmain := writeAt_zip_getD (H.map fun a => a - 1)
      ((List.range H.length).map fun k =>
        (hh.forces.getD k 0 + ll.forces.getD (H.getD k 1 - 1) 0) - hl.forces.getD k 0)
      ll.forces 0 hnd1 k (by simpa using hk) (by simpa using hk) hb
    rw [hidx] at hmain
    rw [hmain, List.getD_eq_getElem _ _ (by simpa using hk), List.getElem_map,
      List.getElem_range]

/-- High worker for the C1 witness: energy 10 on the subset. -/
def oniomWitnessHigh : WorkerOutcome := ⟨10, [⟨1, 0, 0⟩], some 0⟩

/-- Low-on-subset worker for the C1 witness: energy 7. -/
def oniomWitnessLowSub : WorkerOutcome := ⟨7, [⟨0, 1, 0⟩], some 0⟩

/-- Low-on-whole-system worker for the C1 witness: energy 50, three atoms. -/
def oniomWitnessLowFull : WorkerOutcome :=
  ⟨50, [⟨1, 1, 1⟩, ⟨2, 2, 2⟩, ⟨3, 3, 3⟩], some 0⟩

/-- C1 witness: with high subset `[2]` of three atoms and the spec energies
10, 7, 50, the composite energy is 53, atom 1 keeps the whole-system low
force and atom 2 gets the combined force. -/
theorem oniom_combination_witness :
    ([2] : List Nat) ≠ [] ∧
    (oniomEvaluate [2] oniomWitnessHigh oniomWitnessLowSub oniomWitnessLowFull none).1 =
      Except.ok (53, oniomForces [2] oniomWitnessHigh.forces oniomWitnessLowSub.forces
        oniomWitnessLowFull.forces) ∧
    (oniomForces [2] oniomWitnessHigh.forces oniomWitnessLowSub.forces
        oniomWitnessLowFull.forces).getD 0 0 = oniomWitnessLowFull.forces.getD 0 0 ∧
    (oniomForces [2] oniomWitnessHigh.forces oniomWitnessLowSub.forces
        oniomWitnessLowFull.forces).getD 1 0 =
      (oniomWitnessHigh.forces.getD 0 0 + oniomWitnessLowFull.forces.getD 1 0) -
        oniomWitnessLowSub.forces.getD 0 0 := by
  have h := oniom_combination [2] oniomWitnessHigh oniomWitnessLowSub oniomWitnessLowFull 3
    (by decide) (by decide) (by decide) (by decide) rfl rfl rfl
  refine ⟨by decide, ?_, ?_, ?_⟩
  · rw [h.1]
    norm_num [oniomWitnessHigh, oniomWitnessLowSub, oniomWitnessLowFull]
  · simpa using h.2.1 1 (by decide) (by decide)
  · simpa using h.2.2 0 (by decide)

/-! ## Claim C10 — the composite evaluator never uses its pipe -/

/-- C10: every invocation of ONIOMCalculator.evaluate, with or without a
pipe argument, returns the result directly as a pair and sends nothing
through the pipe (the outcome does not depend on the pipe at all), unlike
the plain calculators, whose return tail sends through a supplied pipe and
returns nothing. -/
theorem oniom_ignores_pipe (H : List Nat) (hh hl ll : WorkerOutcome) (pipe : Option Unit) :
    (oniomEvaluate H hh hl ll pipe).2 = [] ∧
    oniomEvaluate H hh hl ll pipe = oniomEvaluate H hh hl ll none ∧
    (∀ res : ℚ × List Vec3, calculatorReturn (some ()) res = (none, [res]) ∧
      calculatorReturn none res = (some res, [])) := by
  refine ⟨?_, rfl, fun res => ⟨rfl, rfl⟩⟩
  unfold oniomEvaluate
  repeat' split
  all_goals rfl

/-! ## Claim C4 — what a worker failure does to the composite evaluation

The coordinator receives the three results before it checks anything
(calculators.py lines 385-387): `parent_hh.recv(); parent_hl.recv();
parent_ll.recv()`, in that order.  The parent process never closes its
copies of the worker ends `child_hh`/`child_hl`/`child_ll`, so a `recv` on
a pipe whose worker died without sending can never see end-of-file: the
call blocks forever and the join bound and exit-code assertions (389-397)
are never reached.  The refined model below therefore gives each worker an
optional sent value and distinguishes three outcomes of the call: blocked
forever, raised, or returned. -/

/-- One ONIOM worker as the coordinator can observe it: the value it put
through `pipe.send` if it ever reached that call, and its exit code after
`join(3600)` (`none` models a worker still alive when the bound elapsed).
A worker that raised before sending has `sent = none` and a non-zero exit
code. -/
structure WorkerRun where
  sent : Option (ℚ × List Vec3)
  exitcode : Option Int
  deriving DecidableEq, Repr

/-- How a call of ONIOMCalculator.evaluate can end: blocked forever at a
named receive site, terminated by a raised error, or returned a value. -/
inductive EvalOutcome where
  | blocked (site : String)
  | raised (msg : String)
  | returned (val : ℚ × List Vec3)
  deriving DecidableEq, Repr

/-- Discriminator: did the call raise? -/
def EvalOutcome.isRaised : EvalOutcome → Bool
  | EvalOutcome.raised _ => true
  | _ => false

/-- Discriminator: did the call return a value? -/
def EvalOutcome.isReturned : EvalOutcome → Bool
  | EvalOutcome.returned _ => true
  | _ => false

/-- ONIOMCalculator.evaluate (calculators.py lines 347-404) including the
receive phase: the non-empty-layer assert (351), then the three blocking
receives in source order (385-387) — a worker that never sent leaves the
call blocked at its receive site — then the exit-code asserts after
`join(3600)` (389-397), then the ONIOM combination (399-404).  The second
component again records everything sent through the unused `pipe`
parameter: nothing. -/
def oniomEvaluateRun (high_atoms : List Nat) (hh hl ll : WorkerRun)
    (pipe : Option Unit) : EvalOutcome × List (ℚ × List Vec3) :=
  if high_atoms.isEmpty then
    (EvalOutcome.raised "no point in doing ONIOM without a high layer!", [])
  else match hh.sent with
  | none => (EvalOutcome.blocked "parent_hh.recv()", [])
  | some rhh => match hl.sent with
    | none => (EvalOutcome.blocked "parent_hl.recv()", [])
    | some rhl => match ll.sent with
      | none => (EvalOutcome.blocked "parent_ll.recv()", [])
      | some rll =>
        if hh.exitcode ≠ some 0 then
          (EvalOutcome.raised "process_hh exited not-ok", [])
        else if hl.exitcode ≠ some 0 then
          (EvalOutcome.raised "process_hl exited not-ok", [])
        else if ll.exitcode ≠ some 0 then
          (EvalOutcome.raised "process_ll exited not-ok", [])
        else
          (EvalOutcome.returned (rhh.1 + rll.1 - rhl.1,
            oniomForces high_atoms rhh.2 rhl.2 rll.2), [])

/-- High worker that delivered energy 10 on the subset and exited cleanly. -/
def oniomSentHigh : WorkerRun := { sent := some (10, [⟨1, 0, 0⟩]), exitcode := some 0 }

/-- Low-on-subset worker that delivered energy 7 and exited cleanly. -/
def oniomSentLowSub : WorkerRun := { sent := some (7, [⟨0, 1, 0⟩]), exitcode := some 0 }

/-- Whole-system worker that raised before reaching `pipe.send` — the
normal failure mode of the external calculators — and exited with status 1
without ever sending a result. -/
def oniomDeadFull : WorkerRun := { sent := none, exitcode := some 1 }

/-- Whole-system worker that delivered its result but was still alive when
the `join(3600)` bound elapsed: its exit code reads as `None`. -/
def oniomBadExitFull : WorkerRun :=
  { sent := some (50, [⟨1, 1, 1⟩, ⟨2, 2, 2⟩, ⟨3, 3, 3⟩]), exitcode := none }

/-- C4 counterexample: the whole-system worker exited with non-success
status 1 having never reached `pipe.send`.  The coordinator blocks forever
in `parent_ll.recv()` (calculators.py line 387) — the parent holds the
child pipe ends open, so no end-of-file ever arrives — and the evaluation
neither raises nor returns, refuting the claim that any worker failure
makes the whole evaluation fail with an error. -/
theorem oniom_worker_failure_counterexample :
    oniomDeadFull.exitcode ≠ some 0 ∧
    (oniomEvaluateRun [2] oniomSentHigh oniomSentLowSub oniomDeadFull none).1
      = EvalOutcome.blocked "parent_ll.recv()" ∧
    EvalOutcome.isRaised
      (oniomEvaluateRun [2] oniomSentHigh oniomSentLowSub oniomDeadFull none).1 = false ∧
    EvalOutcome.isReturned
      (oniomEvaluateRun [2] oniomSentHigh oniomSentLowSub oniomDeadFull none).1 = false :=
  ⟨by decide, rfl, rfl, rfl⟩

/-- C4 amended: when all three workers deliver their results through their
pipes, a worker that then misses the join bound (exit code `None`) or
exited with a non-success status makes the whole evaluation raise, and no
energy-forces value is returned; but a worker that fails before sending
leaves the evaluation blocked forever in the corresponding receive —
neither raising nor returning. -/
theorem oniom_worker_failure_amended (H : List Nat) (hh hl ll : WorkerRun)
    (pipe : Option Unit) (hne : H ≠ []) :
    (hh.sent.isSome = true → hl.sent.isSome = true → ll.sent.isSome = true →
      (hh.exitcode ≠ some 0 ∨ hl.exitcode ≠ some 0 ∨ ll.exitcode ≠ some 0) →
      ∃ msg, (oniomEvaluateRun H hh hl ll pipe).1 = EvalOutcome.raised msg) ∧
    (hh.sent = none →
      (oniomEvaluateRun H hh hl ll pipe).1 = EvalOutcome.blocked "parent_hh.recv()") ∧
    (hh.sent.isSome = true → hl.sent = none →
      (oniomEvaluateRun H hh hl ll pipe).1 = EvalOutcome.blocked "parent_hl.recv()") ∧
    (hh.sent.isSome = true → hl.sent.isSome = true → ll.sent = none →
      (oniomEvaluateRun H hh hl ll pipe).1 = EvalOutcome.blocked "parent_ll.recv()") := by
  have hie : H.isEmpty = false := by
    cases H with
    | nil => exact absurd rfl hne
    | cons a l => rfl
  refine ⟨?_, ?_, ?_, ?_⟩
  · intro h1 h2 h3 h
    obtain ⟨rhh, hshh⟩ := Option.isSome_iff_exists.mp h1
    obtain ⟨rhl, hshl⟩ := Option.isSome_iff_exists.mp h2
    obtain ⟨rll, hsll⟩ := Option.isSome_iff_exists.mp h3
    simp only [oniomEvaluateRun, hie, Bool.false_eq_true, if_false, hshh, hshl, hsll]
    split
    case isTrue => exact ⟨_, rfl⟩
    case isFalse e1 =>
      split
      case isTrue => exact ⟨_, rfl⟩
      case isFalse e2 =>
        split
        case isTrue => exact ⟨_, rfl⟩
        case isFalse e3 =>
          rcases h with h | h | h
          · exact absurd h e1
          · exact absurd h e2
          · exact absurd h e3
  · intro hs
    simp [oniomEvaluateRun, hie, hs]
  · intro h1 hs
    obtain ⟨rhh, hshh⟩ := Option.isSome_iff_exists.mp h1
    simp [oniomEvaluateRun, hie, hshh, hs]
  · intro h1 h2 hs
    obtain ⟨rhh, hshh⟩ := Option.isSome_iff_exists.mp h1
    obtain ⟨rhl, hshl⟩ := Option.isSome_iff_exists.mp h2
    simp [oniomEvaluateRun, hie, hshh, hshl, hs]

/-- C4 witness: the amended theorem applied to workers that all delivered
results, the whole-system one then missing the join bound — the evaluation
raises. -/
theorem oniom_worker_failure_amended_witness :
    ([2] : List Nat) ≠ [] ∧
    oniomBadExitFull.exitcode ≠ some 0 ∧
    ∃ msg, (oniomEvaluateRun [2] oniomSentHigh oniomSentLowSub oniomBadExitFull none).1
      = EvalOutcome.raised msg :=
  ⟨by decide, by decide,
    (oniom_worker_failure_amended [2] oniomSentHigh oniomSentLowSub oniomBadExitFull none
      (by decide)).1 rfl rfl rfl (Or.inr (Or.inr (by decide)))⟩

/-! ## Claim C2 — new-frame count on saving to an existing checkpoint -/

/-- One-atom frame at a given time, used by the persistence examples. -/
def mkFrame (time : ℚ) : FrameData :=
  { time := time, energy := 0, bath_temperature := 298,
    positions := [⟨0, 0, 0⟩], velocities := [⟨0, 0, 0⟩], accelerations := [⟨0, 0, 0⟩] }

/-- One-atom checkpoint holding exactly the initial frame at time 0. -/
def ckOneFrame : Checkpoint :=
  { atomic_numbers := [1], masses := [1], finished := false, forwards := true,
    all_times := [0], all_energies := [0], all_positions := [[⟨0, 0, 0⟩]],
    all_velocities := [[⟨0, 0, 0⟩]], all_accelerations := [[⟨0, 0, 0⟩]],
    bath_temperatures := [298] }

/-- Trajectory state with timestep 1 and save interval 2 whose in-memory
frames reach time 3: the time delta over `timestep * save_interval` is the
fractional quotient 3/2. -/
def trajFractional : TrajState :=
  { timestep := 1, save_interval := 2, buffer := 100, atomic_numbers := [1],
    masses := [1], finished := false, forwards := true,
    frames := [mkFrame 0, mkFrame 1, mkFrame 2, mkFrame 3] }

/-- C2 counterexample: on `trajFractional` over `ckOneFrame` the computed
quotient is the non-integer 3/2, yet `save` neither fails nor leaves the
arrays unchanged — it succeeds and appends the frame at time 2, so the
claim that a fractional quotient is a fatal no-mutation error is false. -/
theorem save_fractional_quotient_counterexample :
    ((3 : ℚ) / 2).den ≠ 1 ∧
    ((mkFrame 3).time - (0 : ℚ)) / (trajFractional.timestep * (trajFractional.save_interval : ℚ))
      = 3 / 2 ∧
    (Trajectory.save trajFractional (some ckOneFrame) false).err = none ∧
    (Trajectory.save trajFractional (some ckOneFrame) false).ck.map Checkpoint.all_times
      = some [0, 2] := by
  refine ⟨by norm_num [Rat.den], by norm_num [mkFrame, trajFractional], ?_, ?_⟩ <;>
    norm_num [Trajectory.save, trajFractional, ckOneFrame, mkFrame, pyInt, pyTail,
      eligibleNewFrames, exactMultiple, Rat.den]

/-- C2 amended: writing to an existing checkpoint computes the new-frame
count as the truncation toward zero of (last in-memory time minus last
persisted time) over `timestep * save_interval`.  A negative truncation is
a fatal error that leaves every persisted array unchanged (only the
finished and forwards attributes are rewritten); a zero truncation — which
covers every quotient strictly between -1 and 1, fractional or not —
returns without error and without changing the arrays; a positive
truncation appends exactly the eligible save-aligned frames when their
number equals the truncated count and is a fatal no-mutation error
otherwise. -/
theorem save_newframes_amended (t : TrajState) (c : Checkpoint) (keep_all : Bool)
    (f : FrameData) (hlast : t.frames.getLast? = some f)
    (ts : ℚ) (hts : c.all_times.getLast? = some ts) :
    (pyInt ((f.time - ts) / (t.timestep * (t.save_interval : ℚ))) < 0 →
      (Trajectory.save t (some c) keep_all).err ≠ none ∧
      (Trajectory.save t (some c) keep_all).ck =
        some { c with finished := t.finished, forwards := t.forwards }) ∧
    (pyInt ((f.time - ts) / (t.timestep * (t.save_interval : ℚ))) = 0 →
      (Trajectory.save t (some c) keep_all).err = none ∧
      (Trajectory.save t (some c) keep_all).ck =
        some { c with finished := t.finished, forwards := t.forwards }) ∧
    (∀ n : Int, pyInt ((f.time - ts) / (t.timestep * (t.save_interval : ℚ))) = n → 0 < n →
      (((eligibleNewFrames ts t.timestep t.save_interval
            (pyTail (-(n * (t.save_interval : Int)) - 1) t.frames)).length : Int) ≠ n →
        (Trajectory.save t (some c) keep_all).err ≠ none ∧
        (Trajectory.save t (some c) keep_all).ck =
          some { c with finished := t.finished, forwards := t.forwards }) ∧
      (((eligibleNewFrames ts t.timestep t.save_interval
            (pyTail (-(n * (t.save_interval : Int)) - 1) t.frames)).length : Int) = n →
        (Trajectory.save t (some c) keep_all).err = none ∧
        (Trajectory.save t (some c) keep_all).ck.map Checkpoint.all_times =
          some (c.all_times ++ (eligibleNewFrames ts t.timestep t.save_interval
            (pyTail (-(n * (t.save_interval : Int)) - 1) t.frames)).map (fun g => g.time)))) := by
  simp only [Trajectory.save, hlast, hts]
  refine ⟨?_, ?_, ?_⟩
  · intro hneg
    rw [if_neg (by omega), if_pos hneg]
    exact ⟨by simp, rfl⟩
  · intro hzero
    rw [if_pos hzero]
    exact ⟨rfl, rfl⟩
  · intro n hn hpos
    subst hn
    constructor
    · intro hne
      rw [if_neg (by omega), if_neg (by omega), if_pos hne]
      exact ⟨by simp, rfl⟩
    · intro heq
      rw [if_neg (by omega), if_neg (by omega), if_neg (by simp [heq])]
      exact ⟨rfl, rfl⟩

/-- Trajectory state whose in-memory frames are still at time 0, matching
the last persisted time: the computed count is zero. -/
def trajZeroDelta : TrajState :=
  { timestep := 1, save_interval := 2, buffer := 100, atomic_numbers := [1],
    masses := [1], finished := false, forwards := true, frames := [mkFrame 0] }

/-- C2 witness: with no time advance since the last flush the truncated
count is zero and `save` is a silent no-op on the arrays. -/
theorem save_newframes_amended_witness :
    trajZeroDelta.frames.getLast? = some (mkFrame 0) ∧
    ckOneFrame.all_times.getLast? = some 0 ∧
    pyInt (((mkFrame 0).time - (0 : ℚ)) /
      (trajZeroDelta.timestep * (trajZeroDelta.save_interval : ℚ))) = 0 ∧
    (Trajectory.save trajZeroDelta (some ckOneFrame) false).err = none ∧
    (Trajectory.save trajZeroDelta (some ckOneFrame) false).ck =
      some { ckOneFrame with finished := false, forwards := true } := by
  have h := (save_newframes_amended trajZeroDelta ckOneFrame false (mkFrame 0) (by decide)
    0 (by decide)).2.1 (by norm_num [pyInt, mkFrame, trajZeroDelta])
  exact ⟨by decide, by decide, by norm_num [pyInt, mkFrame, trajZeroDelta], h.1, h.2⟩

/-! ## Claim C6 — lock release on exit paths of save and load -/

/-- Checkpoint whose single persisted frame sits at time 10, ahead of the
in-memory frames below. -/
def ckTimeTen : Checkpoint := { ckOneFrame with all_times := [10] }

/-- Trajectory whose in-memory frames are behind the persisted time, driving
the new-frame count negative. -/
def trajBehind : TrajState :=
  { trajZeroDelta with save_interval := 1, frames := [mkFrame 5] }

/-- C6 counterexample: saving with a negative new-frame count raises (the
`new_n_frames > 0` assertion at trajectory.py line 396), and on that exit
path the lock acquired at entry is still held — there is no try/finally
around the body, so release is not unconditional as the claim states. -/
theorem save_lock_left_held_counterexample :
    (Trajectory.save trajBehind (some ckTimeTen) false).err ≠ none ∧
    (Trajectory.save trajBehind (some ckTimeTen) false).lockHeldAfter = true := by
  have h : (Trajectory.save trajBehind (some ckTimeTen) false).err
      = some "we cannot write negative frames" := by
    norm_num [Trajectory.save, trajBehind, trajZeroDelta, ckTimeTen, ckOneFrame,
      mkFrame, pyInt, Int.ceil_neg]
  refine ⟨by simp [h], ?_⟩
  norm_num [Trajectory.save, trajBehind, trajZeroDelta, ckTimeTen, ckOneFrame,
    mkFrame, pyInt, Int.ceil_neg]

/-- C6 amended: in both `Trajectory.save` and
`Trajectory.load_from_checkpoint` the inter-process lock is released on
exactly the exit paths that return normally (including the zero-new-frames
early return and the no-checkpoint early return, on which it was never
taken); every path that exits by raising an error leaves the lock held. -/
theorem lock_release_amended (t : TrajState) (ck : Option Checkpoint) (keep_all : Bool)
    (sel : LoadSel) (t2 : TrajState) (ck2 : Option Checkpoint) :
    ((Trajectory.save t ck keep_all).err = none ↔
      (Trajectory.save t ck keep_all).lockHeldAfter = false) ∧
    ((Trajectory.load_from_checkpoint sel t2 ck2).err = none ↔
      (Trajectory.load_from_checkpoint sel t2 ck2).lockHeldAfter = false) := by
  constructor
  · unfold Trajectory.save
    rcases hL : t.frames.getLast? with _ | f
    · simp
    · rcases ck with _ | c
      · dsimp only
        split
        · simp
        · simp
      · dsimp only
        rcases hT : c.all_times.getLast? with _ | ts
        · simp
        · dsimp only
          split
          · simp
          · split
            · simp
            · split
              · simp
              · simp
  · unfold Trajectory.load_from_checkpoint
    rcases ck2 with _ | c
    · simp
    · dsimp only
      split
      · split
        · simp
        · split
          · simp
          · simp
      · simp

/-! ## Claim C9 — slice keyword "first" -/

/-- C9 counterexample: with two persisted rows at times 0 and 1, the keyword
`first` maps to the slice `[1:]` (trajectory.py lines 310-311) and selects
the row at time 1 — not the initial row at time 0, so the claim that
`first` loads exactly the first persisted frame is false. -/
theorem load_first_slice_counterexample :
    loadSelect LoadSel.first 100 [(0 : ℚ), 1] = [1] ∧
    loadSelect LoadSel.first 100 [(0 : ℚ), 1] ≠ [0] := by
  constructor
  · rfl
  · intro h
    have : (1 : ℚ) = 0 := by injection h
    norm_num at this

/-- C9 amended: the slice keyword `first` selects every persisted row except
the initial one — `slice(1, None, None)` drops exactly the first row of each
array, whatever the buffer setting. -/
theorem load_first_slice_amended {α : Type} (buffer : Nat) (l : List α) :
    loadSelect LoadSel.first buffer l = l.drop 1 := rfl

/-! ## Claim C3 — save/load round trip of frame fields -/

/-- C3: the round trip fails in the code as given: rebuilding each frame,
`load_from_checkpoint` (trajectory.py line 355) passes the keyword `time`,
which `Frame.__init__` (frame.py line 20) does not accept, so loading any
checkpoint with at least one selected row raises TypeError before any frame
is reconstructed, and no field comparison ever happens. -/
theorem load_frame_time_kwarg_bug :
    callRaisesTypeError frameInitParams loadFrameCallKwargs = true ∧
    (Trajectory.load_from_checkpoint LoadSel.all trajZeroDelta (some ckOneFrame)).err =
      some "TypeError: unexpected keyword argument time" ∧
    (Trajectory.load_from_checkpoint LoadSel.all trajZeroDelta (some ckOneFrame)).frames
      = [] := by
  exact ⟨by decide, rfl, rfl⟩

/-! ## Claim C7 — center-of-mass motion removal -/

theorem massWeightedSum_map_sub (ms : List ℚ) (vs : List Vec3) (c : Vec3)
    (h : ms.length = vs.length) :
    massWeightedSum ms (vs.map fun v => v.sub c) =
      (massWeightedSum ms vs).sub (Vec3.smul ms.sum c) := by
  induction ms generalizing vs with
  | nil =>
    cases vs with
    | nil =>
      simp [massWeightedSum, vecSum, Vec3.sub, Vec3.smul, Vec3.zero]
    | cons v vs => simp at h
  | cons m ms ih =>
    cases vs with
    | nil => simp at h
    | cons v vs =>
      have ih2 := ih vs (by simpa using h)
      simp only [List.map_cons, massWeightedSum, List.zipWith_cons_cons, vecSum,
        List.foldr_cons] at ih2 ⊢
      rw [ih2]
      rcases v with ⟨vx, vy, vz⟩
      rcases c with ⟨cx, cy, cz⟩
      rcases hA : (List.zipWith Vec3.smul ms vs).foldr Vec3.add Vec3.zero with ⟨ax, ay, az⟩
      simp [Vec3.add, Vec3.sub, Vec3.smul, List.sum_cons]
      refine ⟨by ring, by ring, by ring⟩

theorem massWeightedSum_translation_zero (ms : List ℚ) (vs : List Vec3)
    (h : ms.length = vs.length) (hm : ms.sum ≠ 0) :
    massWeightedSum ms (vs.map fun v =>
      v.sub (Vec3.smul (1 / ms.sum) (massWeightedSum ms vs))) = 0 := by
  rw [massWeightedSum_map_sub ms vs _ h]
  rcases hP : massWeightedSum ms vs with ⟨px, py, pz⟩
  show Vec3.sub _ _ = Vec3.zero
  simp only [Vec3.smul, Vec3.sub, Vec3.zero, Vec3.mk.injEq]
  refine ⟨?_, ?_, ?_⟩ <;> field_simp

/-- C7 counterexample: take masses 1 and 1, positions (1,0,0) and (-1,0,0),
velocities (1,0,0) and (0,0,0), with atom 1 active and atom 2 frozen.
`remove_com_motion` succeeds, yet it changes the frozen atom 2 velocity
from 0 to (-1/2,0,0) — the corrections range over all atoms, the active-atom
set is never consulted — and the net linear momentum of the active atoms
alone ends at (1/2,0,0), whose norm 1/2 is far above the 1e-4 tolerance
(only the all-atom totals, which vanish here, are checked). -/
theorem remove_com_frozen_counterexample :
    Frame.remove_com_motion [1, 1] [⟨1, 0, 0⟩, ⟨-1, 0, 0⟩] [⟨1, 0, 0⟩, ⟨0, 0, 0⟩]
      = Except.ok ([⟨1, 0, 0⟩, ⟨-1, 0, 0⟩], [⟨(1 : ℚ)/2, 0, 0⟩, ⟨-(1 : ℚ)/2, 0, 0⟩]) ∧
    ([⟨(1 : ℚ)/2, 0, 0⟩, ⟨-(1 : ℚ)/2, 0, 0⟩] : List Vec3).getD 1 0 ≠
      ([⟨(1 : ℚ), 0, 0⟩, ⟨0, 0, 0⟩] : List Vec3).getD 1 0 ∧
    ¬ (Vec3.normSq (Vec3.smul 1 ⟨(1 : ℚ)/2, 0, 0⟩) < comTol ^ 2) := by
  refine ⟨?_, ?_, ?_⟩
  · norm_num [Frame.remove_com_motion, massWeightedSum, vecSum, Vec3.add, Vec3.sub,
      Vec3.smul, Vec3.cross, Vec3.dot, Vec3.normSq, Vec3.zero, comTol]
  · simp only [List.getD, List.getElem?_cons_succ, List.getElem?_cons_zero,
      Option.getD_some, ne_eq, Vec3.mk.injEq, not_and]
    intro h
    norm_num at h
  · norm_num [Vec3.normSq, Vec3.dot, Vec3.smul, comTol]

/-- C7 amended: `remove_com_motion` applies its corrections to every atom,
frozen included: the translational step subtracts the same mass-averaged
velocity from each atom, and with nonzero total mass it cancels the net
linear momentum of all atoms exactly.  On successful return the residual
net linear momentum and net angular momentum of all atoms (not of the
active subset) are below the fixed tolerance 1e-4, and exceeding that
tolerance after a correction is a raised fatal error, not a warning. -/
theorem remove_com_motion_amended (masses : List ℚ) (positions velocities p v : List Vec3)
    (hok : Frame.remove_com_motion masses positions velocities = Except.ok (p, v)) :
    (Vec3.normSq (massWeightedSum masses v) < comTol ^ 2 ∧
     Vec3.normSq (massWeightedSum masses (List.zipWith Vec3.cross v p)) < comTol ^ 2) ∧
    (masses.length = velocities.length → masses.sum ≠ 0 →
      massWeightedSum masses (velocities.map fun w =>
        w.sub (Vec3.smul (1 / masses.sum) (massWeightedSum masses velocities))) = 0) := by
  constructor
  · revert hok
    unfold Frame.remove_com_motion
    dsimp only
    split_ifs with h1 h2 h3 <;> intro hok2 <;>
      first
        | simp only [reduceCtorEq] at hok2
        | (injection hok2 with hpv
           injection hpv with hp hv
           subst hp
           subst hv
           exact ⟨h2, h3⟩)
  · intro h hm
    exact massWeightedSum_translation_zero masses velocities h hm

/-- C7 witness: the amended theorem applied at the two-atom example above —
the call succeeds, the all-atom residuals are below tolerance, and the
translational step cancels the all-atom momentum exactly. -/
theorem remove_com_motion_amended_witness :
    Frame.remove_com_motion [1, 1] [⟨1, 0, 0⟩, ⟨-1, 0, 0⟩] [⟨1, 0, 0⟩, ⟨0, 0, 0⟩]
      = Except.ok ([⟨1, 0, 0⟩, ⟨-1, 0, 0⟩], [⟨(1 : ℚ)/2, 0, 0⟩, ⟨-(1 : ℚ)/2, 0, 0⟩]) ∧
    Vec3.normSq (massWeightedSum [1, 1] [⟨(1 : ℚ)/2, 0, 0⟩, ⟨-(1 : ℚ)/2, 0, 0⟩])
      < comTol ^ 2 ∧
    massWeightedSum [1, 1] (([⟨1, 0, 0⟩, ⟨0, 0, 0⟩] : List Vec3).map fun w =>
      w.sub (Vec3.smul (1 / ([1, 1] : List ℚ).sum)
        (massWeightedSum [1, 1] [⟨1, 0, 0⟩, ⟨0, 0, 0⟩]))) = 0 := by
  have hok : Frame.remove_com_motion [1, 1] [⟨1, 0, 0⟩, ⟨-1, 0, 0⟩] [⟨1, 0, 0⟩, ⟨0, 0, 0⟩]
      = Except.ok ([⟨1, 0, 0⟩, ⟨-1, 0, 0⟩], [⟨(1 : ℚ)/2, 0, 0⟩, ⟨-(1 : ℚ)/2, 0, 0⟩]) := by
    norm_num [Frame.remove_com_motion, massWeightedSum, vecSum, Vec3.add, Vec3.sub,
      Vec3.smul, Vec3.cross, Vec3.dot, Vec3.normSq, Vec3.zero, comTol]
  have h := remove_com_motion_amended [1, 1] [⟨1, 0, 0⟩, ⟨-1, 0, 0⟩] [⟨1, 0, 0⟩, ⟨0, 0, 0⟩]
    [⟨1, 0, 0⟩, ⟨-1, 0, 0⟩] [⟨(1 : ℚ)/2, 0, 0⟩, ⟨-(1 : ℚ)/2, 0, 0⟩] hok
  exact ⟨hok, h.1.1, h.2 rfl (by norm_num)⟩

/-! ## Claims C5 and C8 — controller runs on concrete trajectories -/

/-- Free-particle integrator stub: the successor keeps the current
coordinates (the integration rule is an external contract; any rule
yielding the expected frame time exercises the same controller paths). -/
def integZero : FrameData → Bool → IntegratorStep :=
  fun f _ => { energy := 0, new_x := f.positions, new_v := f.velocities,
               new_a := f.accelerations }

/-- Reaction trajectory whose termination predicate is already true on the
initial frame, with settle duration `time_after_finished = 5`. -/
def reactionTraj : CtrlTraj :=
  { kind := TrajKind.reaction, timestep := 1, stop_time := 10, forwards := true,
    bath_scheduler := fun _ => 298, termination_function := fun _ => true,
    time_after_finished := 5, frames := [mkFrame 0], finished := false }

/-- C5: code bug — on a reaction trajectory whose termination predicate is
true from the start, the run does not extend the end time by the settle
duration and keep stepping: the very first iteration evaluates
`self.frames[-1]` (controller.py line 57) on the Controller object, which
has no `frames` attribute (its constructor sets only `self.trajectory`), so
the run aborts with AttributeError before the predicate is ever consulted
and `finished` is never finalized. -/
theorem controller_reaction_run_aborts :
    reactionTraj.termination_function (mkFrame 0) = true ∧
    reactionTraj.time_after_finished = 5 ∧
    controllerRun integZero 20
        { traj := reactionTraj, current_time := 0, end_time := 10, finished_early := false }
      = Except.error "AttributeError: Controller object has no attribute frames" := by
  refine ⟨rfl, rfl, ?_⟩
  norm_num [controllerRun, controllerTick, frameNext, reactionTraj, integZero, mkFrame]

/-- Equilibration trajectory with the non-constant bath schedule
`t mapsto 100 t`; its initial frame carries bath temperature 298. -/
def equilTraj : CtrlTraj :=
  { kind := TrajKind.equilibration, timestep := 1, stop_time := 10, forwards := true,
    bath_scheduler := fun t => 100 * t, termination_function := fun _ => false,
    time_after_finished := 0, frames := [mkFrame 0], finished := false }

/-- C8: code bug — at the tick advancing the clock to time 1, the scheduled
bath temperature is `bath_scheduler 1 = 100`, and controller.py line 40 even
computes it into a local variable, but line 42 passes
`current_frame.bath_temperature` to `Frame.next` instead, so the new frame
carries the previous bath temperature 298, not the scheduled 100. -/
theorem controller_scheduled_temperature_discarded :
    equilTraj.bath_scheduler (0 + equilTraj.timestep) = 100 ∧
    ((controllerTick integZero
        { traj := equilTraj, current_time := 0, end_time := 10, finished_early := false
          }).toOption.map
      fun s => s.traj.frames.getLast?.map fun f => f.bath_temperature)
      = some (some 298) ∧
    (298 : ℚ) ≠ 100 := by
  refine ⟨by norm_num [equilTraj], ?_, by norm_num⟩
  norm_num [controllerTick, equilTraj, frameNext, integZero, mkFrame, Except.toOption,
    List.getLast?_concat]
  rw [if_neg (show ¬ (TrajKind.equilibration = TrajKind.reaction) from by simp)]
  simp [List.getLast?_concat]
